import Mathlib

/-!
Shallow embedding of the streamsync-browser core (the Neko WebRTC client):
the binary wire codec and keymap of `src/lib/neko/protocol.ts`, and the
session state machine of `src/lib/neko/client.ts`.  Machine integers are
modelled as `Nat`/`Int` with explicit `% 2^w`; JavaScript `Math.round` on a
rational is `⌊q + 1/2⌋` (half-up, toward +∞); `DataView.setUintN` applies the
ECMAScript ToUintN conversion (Euclidean remainder modulo `2^N`).
-/

/-- A byte buffer: a list of byte values (each `< 256` by construction). -/
abbrev Bytes := List Nat

/-- Write value `v` at byte offset `i` of buffer `b` (out-of-range writes are
unreachable for the fixed-size buffers used below). -/
def setByte : Bytes → Nat → Nat → Bytes
  | [], _, _ => []
  | _ :: t, 0, v => v :: t
  | h :: t, n + 1, v => h :: setByte t n v

/-- `new ArrayBuffer(size)` zero-initialised, then `view.setUint8(0, opcode)`:
the `createMessage` helper of protocol.ts. -/
def createMessage (opcode size : Nat) : Bytes :=
  setByte (List.replicate size 0) 0 opcode

/-- ECMAScript ToUint8 of an integer. -/
def toUint8 (i : Int) : Nat := (i % 256).toNat

/-- ECMAScript ToUint16 of an integer. -/
def toUint16 (i : Int) : Nat := (i % 65536).toNat

/-- ECMAScript ToUint32 of an integer. -/
def toUint32 (i : Int) : Nat := (i % 4294967296).toNat

/-- JavaScript `Math.round` on an (exact) numeric argument: nearest integer,
halves toward +∞. -/
def jsRound (q : ℚ) : Int := ⌊q + 1 / 2⌋

/-- `view.setUint16(off, v, true)`: little-endian write of ToUint16(v). -/
def setUint16LE (b : Bytes) (off : Nat) (i : Int) : Bytes :=
  let v := toUint16 i
  setByte (setByte b off (v % 256)) (off + 1) (v / 256 % 256)

/-- `view.setInt16(off, v, true)`: the stored bytes coincide with the
ToUint16 image of the integer. -/
def setInt16LE (b : Bytes) (off : Nat) (i : Int) : Bytes :=
  setUint16LE b off i

/-- `view.setUint32(off, v, true)`: little-endian write of ToUint32(v). -/
def setUint32LE (b : Bytes) (off : Nat) (i : Int) : Bytes :=
  let v := toUint32 i
  setByte (setByte (setByte (setByte b off (v % 256))
    (off + 1) (v / 256 % 256)) (off + 2) (v / 65536 % 256))
    (off + 3) (v / 16777216 % 256)

/-- protocol.ts `encodeMouseMove`: opcode 0x01, then uint16 x, uint16 y
(little-endian), each coordinate first passed through `Math.round`. -/
def encodeMouseMove (x y : ℚ) : Bytes :=
  setUint16LE (setUint16LE (createMessage 0x01 5) 1 (jsRound x)) 3 (jsRound y)

/-- protocol.ts `encodeMouseScroll`: opcode 0x02, then int16 dx, int16 dy. -/
def encodeMouseScroll (deltaX deltaY : ℚ) : Bytes :=
  setInt16LE (setInt16LE (createMessage 0x02 5) 1 (jsRound deltaX)) 3 (jsRound deltaY)

/-- protocol.ts `encodeMouseButton`: opcode 0x03 (down) or 0x04 (up), then
uint8 button code. -/
def encodeMouseButton (button : Nat) (pressed : Bool) : Bytes :=
  setByte (createMessage (if pressed then 0x03 else 0x04) 2) 1 (toUint8 button)

/-- protocol.ts `encodeKey`: opcode 0x05 (down) or 0x06 (up), then uint32
keysym (little-endian). -/
def encodeKey (keycode : Nat) (pressed : Bool) : Bytes :=
  setUint32LE (createMessage (if pressed then 0x05 else 0x06) 5) 1 keycode

/-- The `KEYSYM_MAP` object literal of protocol.ts, as an association list in
source order. -/
def KEYSYM_MAP : List (String × Nat) :=
  [("KeyA", 0x61), ("KeyB", 0x62), ("KeyC", 0x63), ("KeyD", 0x64), ("KeyE", 0x65),
   ("KeyF", 0x66), ("KeyG", 0x67), ("KeyH", 0x68), ("KeyI", 0x69), ("KeyJ", 0x6a),
   ("KeyK", 0x6b), ("KeyL", 0x6c), ("KeyM", 0x6d), ("KeyN", 0x6e), ("KeyO", 0x6f),
   ("KeyP", 0x70), ("KeyQ", 0x71), ("KeyR", 0x72), ("KeyS", 0x73), ("KeyT", 0x74),
   ("KeyU", 0x75), ("KeyV", 0x76), ("KeyW", 0x77), ("KeyX", 0x78), ("KeyY", 0x79),
   ("KeyZ", 0x7a),
   ("Digit0", 0x30), ("Digit1", 0x31), ("Digit2", 0x32), ("Digit3", 0x33),
   ("Digit4", 0x34), ("Digit5", 0x35), ("Digit6", 0x36), ("Digit7", 0x37),
   ("Digit8", 0x38), ("Digit9", 0x39),
   ("F1", 0xffbe), ("F2", 0xffbf), ("F3", 0xffc0), ("F4", 0xffc1), ("F5", 0xffc2),
   ("F6", 0xffc3), ("F7", 0xffc4), ("F8", 0xffc5), ("F9", 0xffc6), ("F10", 0xffc7),
   ("F11", 0xffc8), ("F12", 0xffc9),
   ("Space", 0x20), ("Enter", 0xff0d), ("Tab", 0xff09), ("Escape", 0xff1b),
   ("Backspace", 0xff08), ("Delete", 0xffff), ("Insert", 0xff63),
   ("Home", 0xff50), ("End", 0xff57), ("PageUp", 0xff55), ("PageDown", 0xff56),
   ("ArrowUp", 0xff52), ("ArrowDown", 0xff54), ("ArrowLeft", 0xff51),
   ("ArrowRight", 0xff53),
   ("ShiftLeft", 0xffe1), ("ShiftRight", 0xffe2), ("ControlLeft", 0xffe3),
   ("ControlRight", 0xffe4), ("AltLeft", 0xffe9), ("AltRight", 0xffea),
   ("MetaLeft", 0xffeb), ("MetaRight", 0xffec), ("CapsLock", 0xffe5),
   ("Minus", 0x2d), ("Equal", 0x3d), ("BracketLeft", 0x5b), ("BracketRight", 0x5d),
   ("Backslash", 0x5c), ("Semicolon", 0x3b), ("Quote", 0x27), ("Backquote", 0x60),
   ("Comma", 0x2c), ("Period", 0x2e), ("Slash", 0x2f)]

/-- `KEYSYM_MAP[code]`: property lookup on the object literal. -/
def keysymLookup (code : String) : Option Nat :=
  (KEYSYM_MAP.find? (fun p => p.1 = code)).map (·.2)

/-- JavaScript `String.prototype.startsWith`: is `p` a prefix of `s`?
(Stated over the character lists so that concrete instances compute.) -/
def jsStartsWith (s p : String) : Bool := p.data.isPrefixOf s.data

/-- The three fields of the browser KeyboardEvent that `getKeysym` reads. -/
structure KeyEvt where
  code : String
  key : String
  shiftKey : Bool
deriving DecidableEq, Repr

/-- protocol.ts `getKeysym`: mapped codes (JavaScript truthiness: a value of 0
would fall through) get the table value, minus 0x20 when the code starts with
"Key" and shift is held; otherwise a single-character `key` yields its code
point, and anything else yields null. -/
def getKeysym (e : KeyEvt) : Option Nat :=
  match keysymLookup e.code with
  | some k =>
    if k ≠ 0 then
      some (if jsStartsWith e.code "Key" && e.shiftKey then k - 0x20 else k)
    else if e.key.length = 1 then some (e.key.get 0).toNat else none
  | none =>
    if e.key.length = 1 then some (e.key.get 0).toNat else none

/-- protocol.ts `getMouseButton`: browser button index to X11 button code,
defaulting to left (1). -/
def getMouseButton (button : Int) : Nat :=
  if button = 0 then 1
  else if button = 1 then 2
  else if button = 2 then 3
  else if button = 3 then 8
  else if button = 4 then 9
  else 1

/-- Decoded input events of the wire format (§6 of the spec). -/
inductive InputEvent where
  | mouseMove (x y : Nat)
  | mouseScroll (dx dy : Int)
  | mouseDown (buttonCode : Nat)
  | mouseUp (buttonCode : Nat)
  | keyDown (keycode : Nat)
  | keyUp (keycode : Nat)
deriving DecidableEq, Repr

/-- Decode failures (§4.1 of the spec). -/
inductive DecodeError where
  | unknownOpcode
  | truncated
deriving DecidableEq, Repr

/-- Little-endian uint16 from two bytes. -/
def u16 (b0 b1 : Nat) : Nat := b0 + 256 * b1

/-- Reinterpret a uint16 value as a signed int16. -/
def asInt16 (v : Nat) : Int := if v < 32768 then (v : Int) else (v : Int) - 65536

/-- Little-endian uint32 from four bytes. -/
def u32 (b0 b1 b2 b3 : Nat) : Nat :=
  b0 + 256 * b1 + 65536 * b2 + 16777216 * b3

/-- Modelled from the spec: the repository ships only the encoders, so the
decoder half of the Wire Codec contract (§4.1, §6) is missing from src/.
Per §6 each opcode has a fixed layout (0x01 MouseMove u16 x/y, 0x02
MouseScroll i16 dx/dy, 0x03/0x04 Mouse Down/Up u8 code, 0x05/0x06 Key
Down/Up u32 keysym, all little-endian); per §4.1 an unrecognised first byte
yields `DecodeError(UnknownOpcode)` and a buffer shorter than the opcode's
fixed size yields `DecodeError(Truncated)`. -/
def decode (b : Bytes) : Except DecodeError InputEvent :=
  match b with
  | [] => .error .truncated
  | 0x01 :: rest =>
    match rest with
    | x0 :: x1 :: y0 :: y1 :: _ => .ok (.mouseMove (u16 x0 x1) (u16 y0 y1))
    | _ => .error .truncated
  | 0x02 :: rest =>
    match rest with
    | d0 :: d1 :: e0 :: e1 :: _ =>
      .ok (.mouseScroll (asInt16 (u16 d0 d1)) (asInt16 (u16 e0 e1)))
    | _ => .error .truncated
  | 0x03 :: rest =>
    match rest with
    | c :: _ => .ok (.mouseDown c)
    | _ => .error .truncated
  | 0x04 :: rest =>
    match rest with
    | c :: _ => .ok (.mouseUp c)
    | _ => .error .truncated
  | 0x05 :: rest =>
    match rest with
    | k0 :: k1 :: k2 :: k3 :: _ => .ok (.keyDown (u32 k0 k1 k2 k3))
    | _ => .error .truncated
  | 0x06 :: rest =>
    match rest with
    | k0 :: k1 :: k2 :: k3 :: _ => .ok (.keyUp (u32 k0 k1 k2 k3))
    | _ => .error .truncated
  | _ :: _ => .error .unknownOpcode

/-! ## The session state machine (client.ts) -/

/-- client.ts `NekoConfig` (types.ts): server url, optional password and
display name. -/
structure NekoConfig where
  url : String
  password : Option String
  displayName : Option String
deriving DecidableEq, Repr

/-- client.ts `NekoState`: the SessionState record. -/
structure NekoState where
  connected : Bool
  connecting : Bool
  controlling : Bool
  videoWidth : Nat
  videoHeight : Nat
  error : Option String
deriving DecidableEq, Repr

/-- The default SessionState literal of client.ts (lines 15-22, repeated in
`disconnect`). -/
def defaultNekoState : NekoState :=
  { connected := false, connecting := false, controlling := false,
    videoWidth := 1280, videoHeight := 720, error := none }

/-- Event callbacks of `NekoEvents` that the client can fire. -/
inductive EventOut where
  | connectedE
  | disconnectedE (reason : String)
  | errorE (msg : String)
  | controlGrantedE
  | controlReleasedE
  | resizeE (w h : Nat)
deriving DecidableEq, Repr

/-- Signaling messages the client sends over the WebSocket. -/
inductive OutMsg where
  | identity (displayname password : String)
  | answer
  | candidate
  | controlRequest
  | controlRelease
deriving DecidableEq, Repr

/-- Observable effects of one synchronous run of client code: event-callback
invocations, WebSocket sends, data-channel sends, `close()` calls on the three
resources, reconnect timers armed (delay in ms), and settlement of the promise
returned by `connect`. -/
inductive Out where
  | emit (e : EventOut)
  | wsSend (m : OutMsg)
  | dcSend (b : Bytes)
  | closeDataChannel
  | closePeer
  | closeWs
  | schedule (delayMs : Nat)
  | resolveConnect
  | rejectConnect (msg : String)
deriving DecidableEq, Repr

/-- Inbound signaling messages dispatched by `handleMessage`, keyed by their
`event` discriminant. -/
inductive InMsg where
  | provide
  | candidate
  | identityAck (id : String)
  | resolution (w h : Nat)
  | controlGive
  | controlRelease
  | other (evt : String)
deriving DecidableEq, Repr

/-- The mutable fields of the `NekoClient` object that the modelled behaviour
reads or writes.  `ws`/`dataChannel` are `some b` when the resource exists
with `b` = (readyState is OPEN); `pc` records whether a peer connection
exists.  `promisePending` tracks whether the promise returned by
`establishConnection` inside `connect` is still unsettled, and
`pendingWsClose` counts close events still to be delivered for sockets the
client closed itself (WebSocket close events fire asynchronously), and
`pendingWsError` counts error events still to be delivered: per the
WebSocket lifecycle, `close()` on a still-CONNECTING socket fails the
connection, which fires `error` before `close`, while closing an OPEN
socket is clean and fires only `close`. -/
structure NekoClient where
  config : Option NekoConfig
  ws : Option Bool
  pc : Bool
  dataChannel : Option Bool
  state : NekoState
  memberId : String
  reconnectAttempts : Nat
  promisePending : Bool
  pendingWsClose : Nat
  pendingWsError : Nat
deriving DecidableEq, Repr

/-- `maxReconnectAttempts` (client.ts line 26). -/
def maxReconnectAttempts : Nat := 5

/-- A fresh `NekoClient` instance. -/
def initClient : NekoClient :=
  { config := none, ws := none, pc := false, dataChannel := none,
    state := defaultNekoState, memberId := "", reconnectAttempts := 0,
    promisePending := false, pendingWsClose := 0, pendingWsError := 0 }

namespace NekoClient

/-- client.ts `send`: transmit a signaling message only when the WebSocket is
in the OPEN state. -/
def send (c : NekoClient) (m : OutMsg) : List Out :=
  if c.ws = some true then [.wsSend m] else []

/-- client.ts `sendBinary`: transmit on the data channel only when its
readyState is open. -/
def sendBinary (c : NekoClient) (b : Bytes) : List Out :=
  if c.dataChannel = some true then [.dcSend b] else []

/-- client.ts `cleanup`: close and null the data channel, the peer
connection, then the WebSocket, in that order.  Closing a live WebSocket
queues its (asynchronous) close event; closing one that is still CONNECTING
fails the connection, additionally queueing its error event. -/
def cleanup (c : NekoClient) : NekoClient × List Out :=
  ({ c with dataChannel := none, pc := false, ws := none,
            pendingWsClose := c.pendingWsClose + (if c.ws.isSome then 1 else 0),
            pendingWsError := c.pendingWsError + (if c.ws = some false then 1 else 0) },
   (if c.dataChannel.isSome then [Out.closeDataChannel] else []) ++
   (if c.pc then [Out.closePeer] else []) ++
   (if c.ws.isSome then [Out.closeWs] else []))

/-- client.ts `handleDisconnect`: remember whether we were connected, clear
the three flags, emit `disconnected` only if we were connected, clean up, and
— if we were connected with a config still stored and fewer than
`maxReconnectAttempts` attempts used — increment the attempt counter and arm
a reconnect timer of `2000 * attempts` ms. -/
def handleDisconnect (reason : String) (c : NekoClient) : NekoClient × List Out :=
  let wasConnected := c.state.connected
  let c1 := { c with state :=
    { c.state with connected := false, connecting := false, controlling := false } }
  let ev : List Out := if wasConnected then [.emit (.disconnectedE reason)] else []
  let p := cleanup c1
  if wasConnected ∧ p.1.config.isSome ∧ p.1.reconnectAttempts < maxReconnectAttempts then
    ({ p.1 with reconnectAttempts := p.1.reconnectAttempts + 1 },
     ev ++ p.2 ++ [.schedule (2000 * (p.1.reconnectAttempts + 1))])
  else (p.1, ev ++ p.2)

/-- client.ts `disconnect`: null the config, clean up, and reset the state
record to the defaults. -/
def disconnect (c : NekoClient) : NekoClient × List Out :=
  let p := cleanup { c with config := none }
  ({ p.1 with state := defaultNekoState }, p.2)

/-- client.ts `buildWebSocketUrl`: strip one trailing slash, rewrite an
http/https scheme to ws/wss, default to wss when no ws/wss scheme is present,
and append `/ws` unless it is already the suffix. -/
def buildWebSocketUrl (url : String) : String :=
  let cleanUrl := if url.endsWith "/" then url.dropRight 1 else url
  let cleanUrl :=
    if jsStartsWith cleanUrl "http://" then "ws://" ++ cleanUrl.drop 7
    else if jsStartsWith cleanUrl "https://" then "wss://" ++ cleanUrl.drop 8
    else if !jsStartsWith cleanUrl "ws://" && !jsStartsWith cleanUrl "wss://" then
      "wss://" ++ cleanUrl
    else cleanUrl
  if !cleanUrl.endsWith "/ws" then cleanUrl ++ "/ws" else cleanUrl

/-- The endpoint derivation exactly as §6 of the spec words it: "given a
user-supplied address, strip trailing slash; map http→ws, https→wss; if no
scheme, prefix wss://; append /ws if not already the suffix" — stated
independently of `buildWebSocketUrl` for the refinement claim. -/
def specEndpoint (url : String) : String :=
  let s := if url.endsWith "/" then url.dropRight 1 else url
  let s :=
    if jsStartsWith s "http://" then "ws://" ++ s.drop 7
    else if jsStartsWith s "https://" then "wss://" ++ s.drop 8
    else if !(jsStartsWith s "ws://" || jsStartsWith s "wss://" ||
              jsStartsWith s "http://" || jsStartsWith s "https://") then
      "wss://" ++ s
    else s
  if !s.endsWith "/ws" then s ++ "/ws" else s

/-- client.ts `connect` (synchronous prefix): a connecting or connected
client is first fully disconnected; then the config is stored, `connecting`
set, `error` cleared, the attempt counter reset, and `establishConnection`
creates the WebSocket (not yet open) whose promise is now pending. -/
def connect (cfg : NekoConfig) (c : NekoClient) : NekoClient × List Out :=
  let p := if c.state.connecting || c.state.connected then disconnect c else (c, [])
  ({ p.1 with config := some cfg,
              state := { p.1.state with connecting := true, error := none },
              reconnectAttempts := 0,
              ws := some false,
              promisePending := true }, p.2)

/-- `ws.onopen`: mark the socket OPEN and, when a password is configured,
send the `member/identity` message (display name defaulting to "User"). -/
def wsOpen (c : NekoClient) : NekoClient × List Out :=
  let c1 := { c with ws := some true }
  match c.config with
  | some cfg =>
    match cfg.password with
    | some pw => (c1, c1.send (.identity (cfg.displayName.getD "User") pw))
    | none => (c1, [])
  | none => (c1, [])

/-- client.ts `handleSignalProvide`: create the peer connection, register its
handlers, set the remote offer and send the local answer. -/
def handleSignalProvide (c : NekoClient) : NekoClient × List Out :=
  let c1 := { c with pc := true }
  (c1, c1.send .answer)

/-- client.ts `handleMessage`: dispatch one inbound signaling message. -/
def handleMessage (m : InMsg) (c : NekoClient) : NekoClient × List Out :=
  match m with
  | .provide => handleSignalProvide c
  | .candidate => (c, [])
  | .identityAck id => ({ c with memberId := id }, [])
  | .resolution w h =>
    ({ c with state := { c.state with videoWidth := w, videoHeight := h } },
     [.emit (.resizeE w h)])
  | .controlGive =>
    ({ c with state := { c.state with controlling := true } },
     [.emit .controlGrantedE])
  | .controlRelease =>
    ({ c with state := { c.state with controlling := false } },
     [.emit .controlReleasedE])
  | .other _ => (c, [])

/-- `ws.onmessage`: run `handleMessage`, then resolve the pending
`establishConnection` promise when the message was `signal/provide`. -/
def wsMessage (m : InMsg) (c : NekoClient) : NekoClient × List Out :=
  let p := handleMessage m c
  if m = .provide ∧ p.1.promisePending then
    ({ p.1 with promisePending := false }, p.2 ++ [.resolveConnect])
  else p

/-- `ws.onerror`: record the error; when the `connect` promise is pending its
rejection runs the catch in `connect` (clear `connecting`, keep the message
in `error`, fire the error callback). -/
def wsError (c : NekoClient) : NekoClient × List Out :=
  let msg := "WebSocket connection failed"
  if c.promisePending then
    ({ c with promisePending := false,
              state := { c.state with connecting := false, error := some msg } },
     [.rejectConnect msg, .emit (.errorE msg)])
  else ({ c with state := { c.state with error := some msg } }, [])

/-- The 10-second timer armed by `establishConnection`: reject only when
still connecting and not connected; a rejection of the already-settled (or
untracked reconnect-path) promise is a no-op. -/
def connectTimeout (c : NekoClient) : NekoClient × List Out :=
  if c.state.connecting ∧ ¬c.state.connected ∧ c.promisePending then
    ({ c with promisePending := false,
              state := { c.state with
                           connecting := false,
                           error := some "Connection timeout" } },
     [.rejectConnect "Connection timeout", .emit (.errorE "Connection timeout")])
  else (c, [])

/-- `ws.onclose` for a close initiated by the remote end. -/
def wsServerClose (reason : String) (c : NekoClient) : NekoClient × List Out :=
  handleDisconnect reason c

/-- Delivery of the asynchronous close event of a socket the client closed
itself (the handlers stay attached to the closed socket). -/
def deliverWsClose (c : NekoClient) : NekoClient × List Out :=
  handleDisconnect "Connection closed" { c with pendingWsClose := c.pendingWsClose - 1 }

/-- Delivery of the error event queued when a still-CONNECTING socket was
closed by the client: the still-attached `onerror` handler runs, rejecting
the `connect` promise if it is still pending. -/
def deliverWsError (c : NekoClient) : NekoClient × List Out :=
  wsError { c with pendingWsError := c.pendingWsError - 1 }

/-- `pc.onconnectionstatechange` reporting `connected`. -/
def pcConnected (c : NekoClient) : NekoClient × List Out :=
  ({ c with state := { c.state with connected := true, connecting := false } },
   [.emit .connectedE])

/-- `pc.onconnectionstatechange` reporting `disconnected` or `failed`. -/
def pcFailed (c : NekoClient) : NekoClient × List Out :=
  handleDisconnect "WebRTC connection failed" c

/-- `pc.ondatachannel`: adopt the host-created data channel (not yet open). -/
def dcArrive (c : NekoClient) : NekoClient × List Out :=
  ({ c with dataChannel := some false }, [])

/-- Data-channel `onopen`. -/
def dcOpenEvt (c : NekoClient) : NekoClient × List Out :=
  ({ c with dataChannel := some true }, [])

/-- Data-channel `onclose` (the channel object stays, no longer open). -/
def dcCloseEvt (c : NekoClient) : NekoClient × List Out :=
  ({ c with dataChannel := some false }, [])

/-- The reconnect timer firing: `establishConnection().catch(console.error)`;
with no config stored it throws (swallowed), otherwise it creates a fresh
WebSocket whose promise is not the `connect`-returned one. -/
def reconnectFire (c : NekoClient) : NekoClient × List Out :=
  match c.config with
  | some _ => ({ c with ws := some false }, [])
  | none => (c, [])

/-- client.ts `requestControl`. -/
def requestControl (c : NekoClient) : NekoClient × List Out :=
  (c, c.send .controlRequest)

/-- client.ts `releaseControl`: send `control/release`, then clear the local
`controlling` flag. -/
def releaseControl (c : NekoClient) : NekoClient × List Out :=
  ({ c with state := { c.state with controlling := false } },
   c.send .controlRelease)

/-- client.ts `sendMouseMove`. -/
def sendMouseMove (x y : ℚ) (c : NekoClient) : NekoClient × List Out :=
  if !c.state.controlling then (c, [])
  else (c, c.sendBinary (encodeMouseMove x y))

/-- client.ts `sendMouseScroll`. -/
def sendMouseScroll (deltaX deltaY : ℚ) (c : NekoClient) : NekoClient × List Out :=
  if !c.state.controlling then (c, [])
  else (c, c.sendBinary (encodeMouseScroll deltaX deltaY))

/-- client.ts `sendMouseButton`. -/
def sendMouseButton (button : Int) (pressed : Bool) (c : NekoClient) :
    NekoClient × List Out :=
  if !c.state.controlling then (c, [])
  else (c, c.sendBinary (encodeMouseButton (getMouseButton button) pressed))

/-- client.ts `sendKeyEvent`. -/
def sendKeyEvent (e : KeyEvt) (pressed : Bool) (c : NekoClient) :
    NekoClient × List Out :=
  if !c.state.controlling then (c, [])
  else
    match getKeysym e with
    | some k => (c, c.sendBinary (encodeKey k pressed))
    | none => (c, [])

end NekoClient

/-- One atomic occurrence on the single-threaded event loop: a local API call
or the delivery of one channel/timer callback. -/
inductive Act where
  | connect (cfg : NekoConfig)
  | disconnect
  | requestControl
  | releaseControl
  | sendMouseMove (x y : ℚ)
  | sendMouseScroll (dx dy : ℚ)
  | sendMouseButton (button : Int) (pressed : Bool)
  | sendKeyEvent (e : KeyEvt) (pressed : Bool)
  | wsOpen
  | wsMessage (m : InMsg)
  | wsError
  | wsServerClose (reason : String)
  | deliverWsClose
  | deliverWsError
  | connectTimeout
  | pcConnected
  | pcFailed
  | dcArrive
  | dcOpenEvt
  | dcCloseEvt
  | reconnectFire
deriving DecidableEq, Repr

/-- When an action can occur: API calls and timer firings are always
available; channel callbacks require the resource they are attached to. -/
def Guard (a : Act) (c : NekoClient) : Prop :=
  match a with
  | .wsOpen => c.ws = some false
  | .wsMessage _ => c.ws = some true
  | .wsError => c.ws.isSome
  | .wsServerClose _ => c.ws.isSome
  | .deliverWsClose => 0 < c.pendingWsClose
  | .deliverWsError => 0 < c.pendingWsError
  | .pcConnected => c.pc = true
  | .pcFailed => c.pc = true
  | .dcArrive => c.pc = true
  | .dcOpenEvt => c.dataChannel = some false
  | .dcCloseEvt => c.dataChannel = some true
  | _ => True

instance (a : Act) (c : NekoClient) : Decidable (Guard a c) := by
  unfold Guard; cases a <;> infer_instance

/-- Run one action: the new client and the effects it produced. -/
def stepAct (a : Act) (c : NekoClient) : NekoClient × List Out :=
  match a with
  | .connect cfg => c.connect cfg
  | .disconnect => c.disconnect
  | .requestControl => c.requestControl
  | .releaseControl => c.releaseControl
  | .sendMouseMove x y => c.sendMouseMove x y
  | .sendMouseScroll dx dy => c.sendMouseScroll dx dy
  | .sendMouseButton b p => c.sendMouseButton b p
  | .sendKeyEvent e p => c.sendKeyEvent e p
  | .wsOpen => c.wsOpen
  | .wsMessage m => c.wsMessage m
  | .wsError => c.wsError
  | .wsServerClose r => c.wsServerClose r
  | .deliverWsClose => c.deliverWsClose
  | .deliverWsError => c.deliverWsError
  | .connectTimeout => c.connectTimeout
  | .pcConnected => c.pcConnected
  | .pcFailed => c.pcFailed
  | .dcArrive => c.dcArrive
  | .dcOpenEvt => c.dcOpenEvt
  | .dcCloseEvt => c.dcCloseEvt
  | .reconnectFire => c.reconnectFire

/-- Clients reachable from a fresh instance by any sequence of inbound
signaling/channel events and local API calls. -/
inductive Reachable : NekoClient → Prop where
  | init : Reachable initClient
  | step {c : NekoClient} {a : Act} :
      Reachable c → Guard a c → Reachable (stepAct a c).1

/-- Run a list of actions from a client, collecting all effects. -/
def runTrace (c : NekoClient) : List Act → NekoClient × List Out
  | [] => (c, [])
  | a :: rest =>
    let p := stepAct a c
    let q := runTrace p.1 rest
    (q.1, p.2 ++ q.2)

/-- A concrete config with no password. -/
def cfg0 : NekoConfig := { url := "example.com", password := none, displayName := none }

/-- The client after `connect(cfg0)`, socket open, offer received and
answered, and the peer transport reporting connected. -/
def connectedClient : NekoClient :=
  (runTrace initClient
    [.connect cfg0, .wsOpen, .wsMessage .provide, .pcConnected]).1

/-- `connectedClient` after additionally receiving the data channel, the
channel opening, and a `control/give` grant. -/
def controllingClient : NekoClient :=
  (runTrace connectedClient [.dcArrive, .dcOpenEvt, .wsMessage .controlGive]).1

/-- The client while `connect(cfg0)` is still pending: socket created, no
offer yet. -/
def pendingConnectClient : NekoClient :=
  (runTrace initClient [.connect cfg0]).1

/-- The client while `connect(cfg0)` is pending with the socket already
open but no offer received yet. -/
def pendingOpenClient : NekoClient :=
  (runTrace initClient [.connect cfg0, .wsOpen]).1

/-- Does an effect list emit the `disconnected` callback? -/
def countDisconnectedE (l : List Out) : Nat :=
  l.countP (fun o => match o with | .emit (.disconnectedE _) => true | _ => false)

/-- Count `controlReleased` callback invocations in an effect list. -/
def countControlReleasedE (l : List Out) : Nat :=
  l.countP (fun o => o = .emit .controlReleasedE)

/-- Count rejections of the `connect` promise in an effect list. -/
def countRejects (l : List Out) : Nat :=
  l.countP (fun o => match o with | .rejectConnect _ => true | _ => false)

/-- The 26 letter codes of `KEYSYM_MAP` (the keys starting with "Key"). -/
def letterCodes : List String :=
  ["KeyA", "KeyB", "KeyC", "KeyD", "KeyE", "KeyF", "KeyG", "KeyH", "KeyI",
   "KeyJ", "KeyK", "KeyL", "KeyM", "KeyN", "KeyO", "KeyP", "KeyQ", "KeyR",
   "KeyS", "KeyT", "KeyU", "KeyV", "KeyW", "KeyX", "KeyY", "KeyZ"]

/-- `controllingClient` after its data channel closed again. -/
def controllingClosedDC : NekoClient :=
  (NekoClient.dcCloseEvt controllingClient).1

/-- A client granted control by the host before the peer transport ever
connected: `connect`, socket opens, then `control/give` arrives. -/
def grantedWhileConnecting : NekoClient :=
  (runTrace initClient [.connect cfg0, .wsOpen, .wsMessage .controlGive]).1

/-! ## Theorems -/

theorem toUint16_lt (i : Int) : toUint16 i < 65536 := by
  unfold toUint16; omega

theorem encodeMouseMove_bytes (x y : ℚ) :
    encodeMouseMove x y =
      [0x01, toUint16 (jsRound x) % 256, toUint16 (jsRound x) / 256 % 256,
       toUint16 (jsRound y) % 256, toUint16 (jsRound y) / 256 % 256] := rfl

theorem decode_mouseMove_bytes (b0 b1 b2 b3 : Nat) :
    decode [0x01, b0, b1, b2, b3] = .ok (.mouseMove (u16 b0 b1) (u16 b2 b3)) := rfl

/-- C4: for all rational coordinates, decoding the encoding of
MouseMove(x, y) yields MouseMove with each coordinate rounded to the nearest
integer (JavaScript `Math.round`, via `jsRound`) and reduced modulo 2^16
(`toUint16`): the wire codec round-trips mouse moves up to 16-bit
truncation. -/
theorem mouseMove_decode_encode (x y : ℚ) :
    decode (encodeMouseMove x y) =
      .ok (.mouseMove (toUint16 (jsRound x)) (toUint16 (jsRound y))) := by
  have hx : toUint16 (jsRound x) < 65536 := toUint16_lt _
  have hy : toUint16 (jsRound y) < 65536 := toUint16_lt _
  rw [encodeMouseMove_bytes, decode_mouseMove_bytes]
  have ex : u16 (toUint16 (jsRound x) % 256) (toUint16 (jsRound x) / 256 % 256) =
      toUint16 (jsRound x) := by unfold u16; omega
  have ey : u16 (toUint16 (jsRound y) % 256) (toUint16 (jsRound y) / 256 % 256) =
      toUint16 (jsRound y) := by unfold u16; omega
  rw [ex, ey]

/-- C9: the mouse-button translation is total over the integers and equals
the fixed table 0↦1, 1↦2, 2↦3, 3↦8, 4↦9, returning the left-button code 1
for every other index. -/
theorem getMouseButton_table :
    (getMouseButton 0 = 1 ∧ getMouseButton 1 = 2 ∧ getMouseButton 2 = 3 ∧
     getMouseButton 3 = 8 ∧ getMouseButton 4 = 9) ∧
    ∀ b : Int, b ≠ 0 → b ≠ 1 → b ≠ 2 → b ≠ 3 → b ≠ 4 → getMouseButton b = 1 := by
  refine ⟨by decide, ?_⟩
  intro b h0 h1 h2 h3 h4
  simp [getMouseButton, h0, h1, h2, h3, h4]

/-- Witness for C9 at the out-of-table index 7. -/
theorem getMouseButton_table_witness : getMouseButton 7 = 1 :=
  getMouseButton_table.2 7 (by decide) (by decide) (by decide) (by decide) (by decide)

/-- C7: for every user-supplied address, `buildWebSocketUrl` computes exactly
the endpoint described by the spec: strip one trailing slash, rewrite
`http://`→`ws://` and `https://`→`wss://`, prefix `wss://` when none of the
ws/wss/http/https schemes is present, and append `/ws` exactly when the
result does not already end in `/ws`. -/
theorem buildWebSocketUrl_matches_spec (url : String) :
    NekoClient.buildWebSocketUrl url = NekoClient.specEndpoint url := by
  simp only [NekoClient.buildWebSocketUrl, NekoClient.specEndpoint]
  cases h1 : jsStartsWith (if url.endsWith "/" then url.dropRight 1 else url) "http://" <;>
  cases h2 : jsStartsWith (if url.endsWith "/" then url.dropRight 1 else url) "https://" <;>
    simp [h1, h2]

theorem getKeysym_of_lookup (code key : String) (sh : Bool) (k : Nat)
    (h : keysymLookup code = some k) (hk : k ≠ 0) :
    getKeysym ⟨code, key, sh⟩ = some (if jsStartsWith code "Key" && sh then k - 0x20 else k) := by
  unfold getKeysym
  rw [h]
  simp [hk]

set_option maxHeartbeats 2000000 in
/-- C8: the keysym lookup is a pure function; `KeyA` maps to 0x61 ('a')
unshifted and 0x41 ('A') shifted; every alphabetic key has a base code in
0x61..0x7a and shifts to base − 0x20 (a different code) exactly when shift is
pressed, independently of the reported character; and a key with no table
entry yields the single reported character's code point, else nothing. -/
theorem getKeysym_spec :
    (getKeysym ⟨"KeyA", "a", false⟩ = some 0x61 ∧
     getKeysym ⟨"KeyA", "A", true⟩ = some 0x41) ∧
    (∀ code ∈ letterCodes, ∃ b, keysymLookup code = some b ∧
       0x61 ≤ b ∧ b ≤ 0x7a ∧
       (∀ key : String, ∀ sh : Bool,
         getKeysym ⟨code, key, sh⟩ = some (if sh then b - 0x20 else b)) ∧
       b - 0x20 ≠ b) ∧
    (∀ e : KeyEvt, keysymLookup e.code = none →
       getKeysym e = if e.key.length = 1 then some ((e.key.get 0).toNat) else none) := by
  refine ⟨⟨by decide, by decide⟩, ?_, ?_⟩
  · intro code hcode
    have hks : jsStartsWith code "Key" = true := by fin_cases hcode <;> decide
    have hlook : keysymLookup code = some ((keysymLookup code).getD 0) := by
      fin_cases hcode <;> decide
    have hrange : 0x61 ≤ (keysymLookup code).getD 0 ∧
        (keysymLookup code).getD 0 ≤ 0x7a := by
      fin_cases hcode <;> exact ⟨by decide, by decide⟩
    refine ⟨(keysymLookup code).getD 0, hlook, hrange.1, hrange.2, ?_, by omega⟩
    intro key sh
    rw [getKeysym_of_lookup code key sh _ hlook (by omega)]
    rw [hks]
    cases sh <;> simp
  · intro e h
    unfold getKeysym
    rw [h]

set_option maxHeartbeats 1000000 in
/-- Witness for C8: a shifted letter, a mapped single-character fallback, and
a multi-character fallback, at concrete inputs. -/
theorem getKeysym_spec_witness :
    getKeysym ⟨"KeyQ", "Q", true⟩ = some 0x51 ∧
    getKeysym ⟨"NumpadAdd", "+", false⟩ = some 43 ∧
    getKeysym ⟨"NumpadAdd", "Add", false⟩ = none := by
  refine ⟨?_, ?_, ?_⟩
  · obtain ⟨b, hb, _, _, hkey, _⟩ := getKeysym_spec.2.1 "KeyQ" (by decide)
    have hbv : b = 0x71 := by
      have h2 : keysymLookup "KeyQ" = some 0x71 := by decide
      exact Option.some.inj (hb.symm.trans h2)
    have h3 := hkey "Q" true
    rw [hbv] at h3
    simpa using h3
  · have h := getKeysym_spec.2.2 ⟨"NumpadAdd", "+", false⟩ (by decide)
    rw [h]; decide
  · have h := getKeysym_spec.2.2 ⟨"NumpadAdd", "Add", false⟩ (by decide)
    rw [h]; decide

/-- C6: each input-send method is a pure no-op (no state change, no effect of
any kind, hence no channel transmission) when `controlling` is false; and
when `controlling` is true but the data channel is absent or not open, the
event is silently dropped — nothing is queued, sent, or reported. -/
theorem inputSends_noop (c : NekoClient) (x y dx dy : ℚ) (b : Int) (p : Bool) (e : KeyEvt) :
    (c.state.controlling = false →
      c.sendMouseMove x y = (c, []) ∧ c.sendMouseScroll dx dy = (c, []) ∧
      c.sendMouseButton b p = (c, []) ∧ c.sendKeyEvent e p = (c, [])) ∧
    (c.state.controlling = true → c.dataChannel ≠ some true →
      c.sendMouseMove x y = (c, []) ∧ c.sendMouseScroll dx dy = (c, []) ∧
      c.sendMouseButton b p = (c, []) ∧ c.sendKeyEvent e p = (c, [])) := by
  constructor
  · intro h
    refine ⟨?_, ?_, ?_, ?_⟩ <;>
      simp [NekoClient.sendMouseMove, NekoClient.sendMouseScroll,
            NekoClient.sendMouseButton, NekoClient.sendKeyEvent, h]
  · intro h hdc
    refine ⟨?_, ?_, ?_, ?_⟩
    · simp [NekoClient.sendMouseMove, NekoClient.sendBinary, h, hdc]
    · simp [NekoClient.sendMouseScroll, NekoClient.sendBinary, h, hdc]
    · simp [NekoClient.sendMouseButton, NekoClient.sendBinary, h, hdc]
    · cases hgk : getKeysym e <;>
        simp [NekoClient.sendKeyEvent, NekoClient.sendBinary, h, hdc, hgk]

/-- Witness for C6: a fresh client (not controlling) and a controlling client
whose data channel has closed again both drop a mouse move. -/
theorem inputSends_noop_witness :
    NekoClient.sendMouseMove 1 2 initClient = (initClient, []) ∧
    NekoClient.sendMouseMove 3 4 controllingClosedDC = (controllingClosedDC, []) :=
  ⟨((inputSends_noop initClient 1 2 0 0 0 true ⟨"KeyA", "a", false⟩).1 rfl).1,
   ((inputSends_noop controllingClosedDC 3 4 0 0 0 true ⟨"KeyA", "a", false⟩).2
      (by decide) (by decide)).1⟩

/-- C2 (amended): `disconnect` closes the data channel, then the peer
session, then the signaling channel, in that order; it nulls the stored
config and resets SessionState to the defaults
{connected:false, connecting:false, controlling:false, videoWidth:1280,
videoHeight:720, error:null}; it is idempotent (a second call changes
nothing and produces no effect); and it emits no `disconnected` event at
all — not even when the session was connected. -/
theorem disconnect_amended (c : NekoClient) :
    (NekoClient.disconnect c).2 =
      (if c.dataChannel.isSome then [Out.closeDataChannel] else []) ++
      (if c.pc then [Out.closePeer] else []) ++
      (if c.ws.isSome then [Out.closeWs] else []) ∧
    (NekoClient.disconnect c).1.state = defaultNekoState ∧
    (NekoClient.disconnect c).1.config = none ∧
    NekoClient.disconnect (NekoClient.disconnect c).1 = ((NekoClient.disconnect c).1, []) ∧
    countDisconnectedE (NekoClient.disconnect c).2 = 0 := by
  refine ⟨rfl, rfl, rfl, ?_, ?_⟩
  · simp [NekoClient.disconnect, NekoClient.cleanup]
  · simp only [NekoClient.disconnect, NekoClient.cleanup, countDisconnectedE]
    cases c.dataChannel <;> cases hp : c.pc <;> cases c.ws <;> rfl

/-- Counterexample to C2 as stated: a reachable connected client for which
`disconnect` emits zero `disconnected` events (not exactly one) — and the
deferred close event of the socket it closed emits none either, because the
state was already reset. -/
theorem disconnect_claim_counterexample :
    Reachable connectedClient ∧
    connectedClient.state.connected = true ∧
    countDisconnectedE (NekoClient.disconnect connectedClient).2 = 0 ∧
    countDisconnectedE (NekoClient.deliverWsClose (NekoClient.disconnect connectedClient).1).2 = 0 := by
  refine ⟨?_, by decide, by decide, by decide⟩
  have h1 := Reachable.step (a := Act.connect cfg0) Reachable.init trivial
  have h2 := Reachable.step (a := Act.wsOpen) h1 (by decide)
  have h3 := Reachable.step (a := Act.wsMessage .provide) h2 (by decide)
  have h4 := Reachable.step (a := Act.pcConnected) h3 (by decide)
  exact h4

/-- C3 (amended): in every state, `releaseControl` clears the local
`controlling` flag immediately (optimistically, without waiting for host
acknowledgment) and changes nothing else; it transmits a `control/release`
message exactly when the signaling channel is open; and it emits no
`controlReleased` event itself (that callback fires only when the host
broadcasts `control/release`). -/
theorem releaseControl_amended (c : NekoClient) :
    (NekoClient.releaseControl c).1 =
      { c with state := { c.state with controlling := false } } ∧
    (NekoClient.releaseControl c).2 =
      (if c.ws = some true then [Out.wsSend .controlRelease] else []) ∧
    countControlReleasedE (NekoClient.releaseControl c).2 = 0 := by
  refine ⟨rfl, rfl, ?_⟩
  simp only [NekoClient.releaseControl, NekoClient.send, countControlReleasedE]
  split <;> rfl

/-- Counterexample to C3 as stated: a reachable controlling client (open
signaling channel) for which `releaseControl` sends `control/release` and
clears the flag but emits zero `controlReleased` events. -/
theorem releaseControl_claim_counterexample :
    Reachable controllingClient ∧
    controllingClient.state.controlling = true ∧
    (NekoClient.releaseControl controllingClient).2 = [Out.wsSend .controlRelease] ∧
    countControlReleasedE (NekoClient.releaseControl controllingClient).2 = 0 ∧
    (NekoClient.releaseControl controllingClient).1.state.controlling = false := by
  refine ⟨?_, by decide, by decide, by decide, by decide⟩
  have h1 := Reachable.step (a := Act.connect cfg0) Reachable.init trivial
  have h2 := Reachable.step (a := Act.wsOpen) h1 (by decide)
  have h3 := Reachable.step (a := Act.wsMessage .provide) h2 (by decide)
  have h4 := Reachable.step (a := Act.pcConnected) h3 (by decide)
  have h5 := Reachable.step (a := Act.dcArrive) h4 (by decide)
  have h6 := Reachable.step (a := Act.dcOpenEvt) h5 (by decide)
  have h7 := Reachable.step (a := Act.wsMessage .controlGive) h6 (by decide)
  exact h7

/-- Counterexample to C1 as stated: a `control/give` message arriving while
the connection attempt is still in flight yields a reachable state with
`controlling = true` but `connected = false` — the handler sets the flag
unconditionally, so `controlling → connected` does not hold. -/
theorem controlling_invariant_counterexample :
    Reachable grantedWhileConnecting ∧
    grantedWhileConnecting.state.controlling = true ∧
    grantedWhileConnecting.state.connected = false ∧
    grantedWhileConnecting.state.connecting = true := by
  refine ⟨?_, by decide, by decide, by decide⟩
  have h1 := Reachable.step (a := Act.connect cfg0) Reachable.init trivial
  have h2 := Reachable.step (a := Act.wsOpen) h1 (by decide)
  have h3 := Reachable.step (a := Act.wsMessage .controlGive) h2 (by decide)
  exact h3

theorem inv_step (a : Act) (c : NekoClient)
    (h : ¬(c.state.connecting = true ∧ c.state.connected = true)) :
    ¬((stepAct a c).1.state.connecting = true ∧ (stepAct a c).1.state.connected = true) := by
  cases a with
  | connect cfg =>
    simp only [stepAct, NekoClient.connect]
    split
    · simp [NekoClient.disconnect, NekoClient.cleanup, defaultNekoState]
    · rename_i hcond
      simp only [Bool.or_eq_true, not_or] at hcond
      push_neg at hcond
      simp_all
  | wsMessage m =>
    cases m <;>
      simp_all [stepAct, NekoClient.wsMessage, NekoClient.handleMessage,
        NekoClient.handleSignalProvide, NekoClient.send] <;>
      split <;> simp_all
  | wsServerClose r =>
    simp [stepAct, NekoClient.wsServerClose, NekoClient.handleDisconnect,
      NekoClient.cleanup]
    split <;> simp
  | deliverWsClose =>
    simp [stepAct, NekoClient.deliverWsClose, NekoClient.handleDisconnect,
      NekoClient.cleanup]
    split <;> simp
  | pcFailed =>
    simp [stepAct, NekoClient.pcFailed, NekoClient.handleDisconnect,
      NekoClient.cleanup]
    split <;> simp
  | wsOpen =>
    simp only [stepAct, NekoClient.wsOpen]
    rcases hcc : c.config with _ | cfg
    · simp_all
    · rcases hp : cfg.password with _ | pw <;> simp_all
  | sendKeyEvent e p =>
    simp only [stepAct, NekoClient.sendKeyEvent]
    split <;> simp_all <;> split <;> simp_all
  | _ =>
    simp_all [stepAct, NekoClient.disconnect, NekoClient.cleanup,
      NekoClient.requestControl, NekoClient.releaseControl,
      NekoClient.sendMouseMove, NekoClient.sendMouseScroll,
      NekoClient.sendMouseButton, NekoClient.wsOpen, NekoClient.wsError,
      NekoClient.connectTimeout, NekoClient.deliverWsError,
      NekoClient.pcConnected, NekoClient.dcArrive,
      NekoClient.dcOpenEvt, NekoClient.dcCloseEvt, NekoClient.reconnectFire,
      NekoClient.send, defaultNekoState] <;>
    (try split) <;> simp_all

/-- C1 (amended): in every reachable client state, `connecting` and
`connected` are never both true.  (The second half of the claim,
`controlling → connected`, fails: see the counterexample.) -/
theorem sessionState_invariant_amended (c : NekoClient) (h : Reachable c) :
    ¬(c.state.connecting = true ∧ c.state.connected = true) := by
  induction h with
  | init => decide
  | step hr hg ih => exact inv_step _ _ ih

/-- Witness for C1 (amended) at the initial client. -/
theorem sessionState_invariant_amended_witness :
    ¬(initClient.state.connecting = true ∧ initClient.state.connected = true) :=
  sessionState_invariant_amended initClient Reachable.init

/-- C5 (the code contradicts the claim): with `connect(cfg0)` pending and
the socket already open but no offer received yet, `disconnect` closes the
socket cleanly — no error event is queued for an OPEN socket
(`pendingWsError = 0`), so `ws.onerror` never runs — and nothing ever
rejects the pending promise: `disconnect` itself produces no rejection, the
promise is still pending afterwards, the 10-second timeout's guard sees
`connecting = false` and rejects nothing, and the deferred clean-close
delivery rejects nothing: the promise dangles forever.  By contrast (last
two conjuncts), had the socket still been CONNECTING, closing it would fail
the connection and the queued error event would reject the promise, so the
open-socket trace is the genuine dangle. -/
theorem disconnect_while_pending_dangles :
    Reachable pendingOpenClient ∧
    pendingOpenClient.promisePending = true ∧
    pendingOpenClient.state.connecting = true ∧
    pendingOpenClient.ws = some true ∧
    countRejects (NekoClient.disconnect pendingOpenClient).2 = 0 ∧
    (NekoClient.disconnect pendingOpenClient).1.promisePending = true ∧
    (NekoClient.disconnect pendingOpenClient).1.pendingWsError = 0 ∧
    countRejects (NekoClient.connectTimeout (NekoClient.disconnect pendingOpenClient).1).2 = 0 ∧
    (NekoClient.connectTimeout (NekoClient.disconnect pendingOpenClient).1).1.promisePending = true ∧
    countRejects (NekoClient.deliverWsClose (NekoClient.disconnect pendingOpenClient).1).2 = 0 ∧
    (NekoClient.deliverWsClose (NekoClient.disconnect pendingOpenClient).1).1.promisePending = true ∧
    (NekoClient.disconnect pendingConnectClient).1.pendingWsError = 1 ∧
    countRejects (NekoClient.deliverWsError (NekoClient.disconnect pendingConnectClient).1).2 = 1 := by
  refine ⟨?_, by decide, by decide, by decide, by decide, by decide, by decide, by decide,
    by decide, by decide, by decide, by decide, by decide⟩
  exact Reachable.step (a := Act.wsOpen)
    (Reachable.step (a := Act.connect cfg0) Reachable.init trivial) (by decide)

theorem attempts_step (a : Act) (c : NekoClient)
    (h : c.reconnectAttempts ≤ maxReconnectAttempts) :
    (stepAct a c).1.reconnectAttempts ≤ maxReconnectAttempts := by
  cases a with
  | connect cfg =>
    simp [stepAct, NekoClient.connect]
  | wsMessage m =>
    cases m <;>
      simp_all [stepAct, NekoClient.wsMessage, NekoClient.handleMessage,
        NekoClient.handleSignalProvide, NekoClient.send] <;>
      split <;> simp_all
  | wsServerClose r =>
    simp only [stepAct, NekoClient.wsServerClose, NekoClient.handleDisconnect,
      NekoClient.cleanup]
    split <;> simp_all [maxReconnectAttempts] <;> omega
  | deliverWsClose =>
    simp only [stepAct, NekoClient.deliverWsClose, NekoClient.handleDisconnect,
      NekoClient.cleanup]
    split <;> simp_all [maxReconnectAttempts] <;> omega
  | pcFailed =>
    simp only [stepAct, NekoClient.pcFailed, NekoClient.handleDisconnect,
      NekoClient.cleanup]
    split <;> simp_all [maxReconnectAttempts] <;> omega
  | wsOpen =>
    simp only [stepAct, NekoClient.wsOpen]
    rcases hcc : c.config with _ | cfg
    · simp_all
    · rcases hp : cfg.password with _ | pw <;> simp_all
  | sendKeyEvent e p =>
    simp only [stepAct, NekoClient.sendKeyEvent]
    split <;> simp_all <;> split <;> simp_all
  | _ =>
    simp_all [stepAct, NekoClient.disconnect, NekoClient.cleanup,
      NekoClient.requestControl, NekoClient.releaseControl,
      NekoClient.sendMouseMove, NekoClient.sendMouseScroll,
      NekoClient.sendMouseButton, NekoClient.wsError,
      NekoClient.connectTimeout, NekoClient.deliverWsError,
      NekoClient.pcConnected, NekoClient.dcArrive,
      NekoClient.dcOpenEvt, NekoClient.dcCloseEvt, NekoClient.reconnectFire,
      NekoClient.send] <;>
    (try split) <;> simp_all

theorem handleDisconnect_schedules (c : NekoClient) (r : String)
    (h1 : c.state.connected = true) (h2 : c.config.isSome)
    (h3 : c.reconnectAttempts < maxReconnectAttempts) :
    (NekoClient.handleDisconnect r c).1.reconnectAttempts = c.reconnectAttempts + 1 ∧
    Out.schedule (2000 * (c.reconnectAttempts + 1)) ∈ (NekoClient.handleDisconnect r c).2 := by
  simp only [NekoClient.handleDisconnect, NekoClient.cleanup]
  split
  · exact ⟨rfl, by simp⟩
  · rename_i hneg
    exact absurd ⟨h1, h2, h3⟩ hneg

theorem handleDisconnect_no_schedule (c : NekoClient) (r : String) (d : Nat)
    (h : c.state.connected = false ∨ c.config = none ∨
      maxReconnectAttempts ≤ c.reconnectAttempts) :
    Out.schedule d ∉ (NekoClient.handleDisconnect r c).2 := by
  simp only [NekoClient.handleDisconnect, NekoClient.cleanup]
  split
  · rename_i hcond
    obtain ⟨h1, h2, h3⟩ := hcond
    exfalso
    rcases h with h | h | h
    · simp_all
    · simp_all
    · omega
  · cases hc : c.state.connected <;> cases c.dataChannel <;> cases c.pc <;>
      cases c.ws <;> simp

theorem step_no_config_no_schedule (c : NekoClient) (a : Act)
    (hcfg : c.config = none) (hnc : ∀ cfg, a ≠ Act.connect cfg) :
    (stepAct a c).1.config = none ∧ ∀ d, Out.schedule d ∉ (stepAct a c).2 := by
  cases a with
  | connect cfg => exact absurd rfl (hnc cfg)
  | wsServerClose r =>
    refine ⟨?_, ?_⟩
    · simp [stepAct, NekoClient.wsServerClose, NekoClient.handleDisconnect,
        NekoClient.cleanup, hcfg]
    · intro d
      exact handleDisconnect_no_schedule c r d (Or.inr (Or.inl hcfg))
  | deliverWsClose =>
    refine ⟨?_, ?_⟩
    · simp [stepAct, NekoClient.deliverWsClose, NekoClient.handleDisconnect,
        NekoClient.cleanup, hcfg]
    · intro d
      exact handleDisconnect_no_schedule _ _ d (Or.inr (Or.inl hcfg))
  | pcFailed =>
    refine ⟨?_, ?_⟩
    · simp [stepAct, NekoClient.pcFailed, NekoClient.handleDisconnect,
        NekoClient.cleanup, hcfg]
    · intro d
      exact handleDisconnect_no_schedule c _ d (Or.inr (Or.inl hcfg))
  | wsOpen =>
    simp [stepAct, NekoClient.wsOpen, hcfg]
  | wsMessage m =>
    cases m <;>
      simp_all [stepAct, NekoClient.wsMessage, NekoClient.handleMessage,
        NekoClient.handleSignalProvide, NekoClient.send] <;>
      (try split) <;> simp_all
  | sendKeyEvent e p =>
    simp only [stepAct, NekoClient.sendKeyEvent]
    split <;> simp_all [NekoClient.sendBinary] <;> split <;>
      simp_all [NekoClient.sendBinary] <;> (try split) <;> simp_all
  | _ =>
    simp_all [stepAct, NekoClient.disconnect, NekoClient.cleanup,
      NekoClient.requestControl, NekoClient.releaseControl,
      NekoClient.sendMouseMove, NekoClient.sendMouseScroll,
      NekoClient.sendMouseButton, NekoClient.wsError,
      NekoClient.connectTimeout, NekoClient.deliverWsError,
      NekoClient.pcConnected, NekoClient.dcArrive,
      NekoClient.dcOpenEvt, NekoClient.dcCloseEvt, NekoClient.reconnectFire,
      NekoClient.send, NekoClient.sendBinary] <;>
    (try split) <;> simp_all

/-- C10: when the session ends without an explicit `disconnect` (the
disconnect handler runs for a socket close or transport failure) while it
was connected, with a config still stored and fewer than 5 attempts used,
the client increments the attempt counter and arms a reconnect timer of
2000·n ms for attempt n (2 time units of 1000 ms each); no timer is armed
once 5 attempts are used, when it was not connected, or with no config; an
explicit `disconnect` nulls the stored config, and from a config-less state
no action except a fresh `connect` restores a config or arms any reconnect
timer; and no reachable client ever exceeds 5 attempts. -/
theorem autoReconnect_policy :
    (∀ (c : NekoClient) (r : String),
      c.state.connected = true → c.config.isSome →
      c.reconnectAttempts < maxReconnectAttempts →
      (NekoClient.handleDisconnect r c).1.reconnectAttempts = c.reconnectAttempts + 1 ∧
      Out.schedule (2000 * (c.reconnectAttempts + 1)) ∈ (NekoClient.handleDisconnect r c).2) ∧
    (∀ (c : NekoClient) (r : String) (d : Nat),
      c.state.connected = false ∨ c.config = none ∨
        maxReconnectAttempts ≤ c.reconnectAttempts →
      Out.schedule d ∉ (NekoClient.handleDisconnect r c).2) ∧
    (∀ c : NekoClient, (NekoClient.disconnect c).1.config = none) ∧
    (∀ (c : NekoClient) (a : Act), c.config = none → (∀ cfg, a ≠ Act.connect cfg) →
      (stepAct a c).1.config = none ∧ ∀ d, Out.schedule d ∉ (stepAct a c).2) ∧
    (∀ c : NekoClient, Reachable c → c.reconnectAttempts ≤ maxReconnectAttempts) := by
  refine ⟨handleDisconnect_schedules, handleDisconnect_no_schedule, fun c => rfl,
    step_no_config_no_schedule, ?_⟩
  intro c h
  induction h with
  | init => decide
  | step hr hg ih => exact attempts_step _ _ ih

/-- Witness for C10: the first unexpected disconnect of the connected client
schedules a 2000 ms retry, and after an explicit `disconnect` the same
handler schedules nothing. -/
theorem autoReconnect_policy_witness :
    (NekoClient.handleDisconnect "connection lost" connectedClient).1.reconnectAttempts = 1 ∧
    Out.schedule 2000 ∈ (NekoClient.handleDisconnect "connection lost" connectedClient).2 ∧
    Out.schedule 2000 ∉
      (NekoClient.handleDisconnect "connection lost"
        (NekoClient.disconnect connectedClient).1).2 := by
  have h := autoReconnect_policy.1 connectedClient "connection lost"
    (by decide) (by decide) (by decide)
  have e : connectedClient.reconnectAttempts = 0 := by decide
  rw [e] at h
  refine ⟨h.1, by simpa using h.2, ?_⟩
  exact autoReconnect_policy.2.1 _ "connection lost" 2000
    (Or.inr (Or.inl (autoReconnect_policy.2.2.1 connectedClient)))
